import Mathlib

/-
Verification of the k8sGO interaction engine against its specification.

The definitions below are a shallow embedding of the Go source:

  * types.go        (internal/types)        — ViewType, Resource, PaginatedResult, AppState
  * paginateResources, handleRightNavigation (TUI app)
  * the describe-pane scroll family          (scrollDescribeDown / pageDescribeDown /
                                              scrollDescribeToBottom / getMaxDescribeScroll)
  * navigation handlers                      (handleBackNavigation, handleShowYaml,
                                              handleShowTags, handleDescribeResource,
                                              the help-toggle key, the YAML-view back key)
  * the Update message loop                  (resourcesMsg case) and the error branch of
                                              fetchResources
  * extractTextFromScrollableView            (mouse-selection extraction)
  * analyzeResourceHealth                    (resource health classifier, main.go)

Go `int` values are modelled as `Int`; Go slices as `List`; Go maps as association
lists.  Where a Go operation is partial (indexing, division by zero) the embedding
uses the total Lean counterpart and the surrounding guards — which the source also
has — keep every use in range.
-/

namespace K8sGo

/-- ViewType enumeration from internal/types/types.go (iota constants,
ResourceView = 0 is the zero value of the type). -/
inductive ViewType where
  | ResourceView
  | DetailView
  | HelpView
  | ContextView
  | DescribeView
  | TagsView
  | TopView
  | ResourcesView
  | YamlView
  | EventsView
  | NamespaceView
  | DiagramView
  | FeedbackView
  | MemoryView
  | LogsView
  deriving DecidableEq, Repr

/-- Resource record from internal/types/types.go.  The Go field `Type` is renamed
`Typ` (Lean keyword); `Age` is a Go time.Duration, an integer nanosecond count. -/
structure Resource where
  Name : String := ""
  Namespace : String := ""
  Typ : String := ""
  Status : String := ""
  Ready : String := ""
  Restarts : Int := 0
  Age : Int := 0
  CPU : String := ""
  Memory : String := ""
  Description : String := ""
  Volume : String := ""
  Capacity : String := ""
  AccessModes : String := ""
  StorageClass : String := ""
  deriving DecidableEq, Repr

/-- PaginatedResult from internal/types/types.go. -/
structure PaginatedResult where
  Items : List Resource
  CurrentPage : Int
  TotalPages : Int
  TotalItems : Int
  HasNext : Bool
  HasPrev : Bool
  deriving DecidableEq, Repr

/-- The projection of types.AppState (plus App.height, the terminal height stored on
the App struct) that the embedded handlers read and write.  Field defaults are the
Go zero values. -/
structure AppState where
  CurrentView : ViewType := .ResourceView
  PreviousView : ViewType := .ResourceView
  ResourceType : String := ""
  PreviousResource : String := ""
  Namespace : String := ""
  Tool : String := ""
  Resources : List Resource := []
  SelectedResource : Resource := {}
  SelectedIndex : Int := 0
  CurrentPage : Int := 0
  PageSize : Int := 0
  TotalItems : Int := 0
  TotalPages : Int := 0
  DescribeOutput : String := ""
  TagsOutput : String := ""
  TopOutput : String := ""
  ResourcesOutput : String := ""
  YamlOutput : String := ""
  EventsOutput : String := ""
  DiagramOutput : String := ""
  MemoryOutput : String := ""
  LogsOutput : String := ""
  DescribeScrollOffset : Int := 0
  TagsScrollOffset : Int := 0
  YamlScrollOffset : Int := 0
  StatusMessage : String := ""
  SelectionActive : Bool := false
  SelectionStartX : Int := 0
  SelectionStartY : Int := 0
  SelectionEndX : Int := 0
  SelectionEndY : Int := 0
  SelectedText : String := ""
  height : Int := 0
  deriving DecidableEq, Repr

/-- Commands returned by handlers to the Bubbletea runtime (tea.Cmd values issued
by the embedded handlers). -/
inductive Cmd where
  | fetchResources
  | fetchResourceDescription
  | fetchResourceTags
  | fetchResourceYaml
  | printCopy (text : String)
  deriving DecidableEq, Repr

/-- Go slice indexing `l[i]` under a bounds guard; call sites keep 0 ≤ i < len. -/
def goIndex (l : List Resource) (i : Int) : Resource :=
  (l.getD i.toNat {})

/- ------------------------------------------------------------------ -/
/- Pagination (paginateResources, handleRightNavigation)              -/
/- ------------------------------------------------------------------ -/

/-- paginateResources from the TUI app.  Slicing `Resources[start:end]` is
`(drop start).take (end - start)`; the guarded branch keeps start < totalItems
and end ≤ totalItems, exactly as the Go bounds.  All arithmetic is on
non-negative operands at every call site, where Go and Lean integer division
agree. -/
def paginateResources (s : AppState) : PaginatedResult :=
  let totalItems : Int := s.Resources.length
  let totalPages0 : Int := (totalItems + s.PageSize - 1) / s.PageSize
  let totalPages : Int := if totalPages0 = 0 then 1 else totalPages0
  let start : Int := s.CurrentPage * s.PageSize
  let stop : Int := start + s.PageSize
  if totalItems ≤ start then
    { Items := []
      CurrentPage := s.CurrentPage
      TotalPages := totalPages
      TotalItems := totalItems
      HasNext := false
      HasPrev := decide (0 < s.CurrentPage) }
  else
    let stop : Int := if totalItems < stop then totalItems else stop
    { Items := (s.Resources.drop start.toNat).take (stop - start).toNat
      CurrentPage := s.CurrentPage
      TotalPages := totalPages
      TotalItems := totalItems
      HasNext := decide (s.CurrentPage < totalPages - 1)
      HasPrev := decide (0 < s.CurrentPage) }

/-- handleRightNavigation: advance one page when the current page has a next one. -/
def handleRightNavigation (s : AppState) : AppState :=
  if (paginateResources s).HasNext then { s with CurrentPage := s.CurrentPage + 1 } else s

/- ------------------------------------------------------------------ -/
/- Describe-pane scrolling                                            -/
/- ------------------------------------------------------------------ -/

/-- getDescribeViewHeight: terminal height minus title, instructions, padding
and borders. -/
def getDescribeViewHeight (s : AppState) : Int :=
  s.height - 8

/-- strings.Split(text, "\n") on the character list of the text: Go split on a
single-character separator, written as structural recursion so that it is
kernel-evaluable. -/
def splitNl : List Char → List (List Char)
  | [] => [[]]
  | c :: cs =>
    if c = '\n' then [] :: splitNl cs
    else
      match splitNl cs with
      | [] => [[c]]
      | l :: ls => (c :: l) :: ls

/-- getMaxDescribeScroll: 0 for empty output, otherwise
lineCount − viewHeight + 2 (padding), floored at 0. -/
def getMaxDescribeScroll (s : AppState) : Int :=
  if s.DescribeOutput = "" then 0
  else
    let contentLines : Int := (splitNl s.DescribeOutput.toList).length
    let maxScroll : Int := contentLines - getDescribeViewHeight s + 2
    if maxScroll < 0 then 0 else maxScroll

/-- scrollDescribeDown: move one line down unless already at the maximum. -/
def scrollDescribeDown (s : AppState) : AppState :=
  if s.DescribeScrollOffset < getMaxDescribeScroll s then
    { s with DescribeScrollOffset := s.DescribeScrollOffset + 1 }
  else s

/-- scrollDescribeUp: move one line up unless already at the top. -/
def scrollDescribeUp (s : AppState) : AppState :=
  if 0 < s.DescribeScrollOffset then
    { s with DescribeScrollOffset := s.DescribeScrollOffset - 1 }
  else s

/-- describePageSize: half the view height, with a minimum of 1.  Go truncating
division and Lean flooring division give the same value after the minimum-1
clamp, for every height. -/
def describePageSize (s : AppState) : Int :=
  let pageSize := getDescribeViewHeight s / 2
  if pageSize < 1 then 1 else pageSize

/-- pageDescribeDown: add half a viewport and clamp to the maximum. -/
def pageDescribeDown (s : AppState) : AppState :=
  let maxScroll := getMaxDescribeScroll s
  let offset := s.DescribeScrollOffset + describePageSize s
  { s with DescribeScrollOffset := if maxScroll < offset then maxScroll else offset }

/-- pageDescribeUp: subtract half a viewport and clamp to 0. -/
def pageDescribeUp (s : AppState) : AppState :=
  let offset := s.DescribeScrollOffset - describePageSize s
  { s with DescribeScrollOffset := if offset < 0 then 0 else offset }

/-- scrollDescribeToBottom: jump to the computed maximum. -/
def scrollDescribeToBottom (s : AppState) : AppState :=
  { s with DescribeScrollOffset := getMaxDescribeScroll s }

/-- scrollDescribeToTop: the describe-view key g sets the offset to 0. -/
def scrollDescribeToTop (s : AppState) : AppState :=
  { s with DescribeScrollOffset := 0 }

/-- One scroll input on the describe pane (keys j/k/d/u/g/G of
handleDescribeViewKeys). -/
inductive ScrollOp where
  | down
  | up
  | pageDown
  | pageUp
  | toTop
  | toBottom
  deriving DecidableEq, Repr

/-- Dispatch of one scroll input to the describe pane handlers. -/
def stepDescribeScroll (op : ScrollOp) (s : AppState) : AppState :=
  match op with
  | .down => scrollDescribeDown s
  | .up => scrollDescribeUp s
  | .pageDown => pageDescribeDown s
  | .pageUp => pageDescribeUp s
  | .toTop => scrollDescribeToTop s
  | .toBottom => scrollDescribeToBottom s

/-- A sequence of scroll inputs applied in order. -/
def runDescribeScroll (ops : List ScrollOp) (s : AppState) : AppState :=
  ops.foldl (fun t op => stepDescribeScroll op t) s

/- ------------------------------------------------------------------ -/
/- Navigation handlers                                                -/
/- ------------------------------------------------------------------ -/

/-- handleBackNavigation (backspace outside the data views): the single
PreviousView slot is swapped with the current view, falling back to
ResourceView; at ResourceView it is a no-op.  When the restored view is
ResourceView and a previous resource type is recorded, the resource type is
swapped back and a re-fetch is issued. -/
def handleBackNavigation (s : AppState) : AppState × Option Cmd :=
  if s.CurrentView ≠ ViewType.ResourceView then
    let s :=
      if s.PreviousView ≠ s.CurrentView then
        { s with PreviousView := s.CurrentView, CurrentView := s.PreviousView }
      else
        { s with PreviousView := s.CurrentView, CurrentView := ViewType.ResourceView }
    if s.CurrentView = ViewType.ResourceView ∧ s.PreviousResource ≠ "" then
      ({ s with
          PreviousResource := s.ResourceType
          ResourceType := s.PreviousResource
          CurrentPage := 0
          SelectedIndex := 0 }, some Cmd.fetchResources)
    else (s, none)
  else (s, none)

/-- The question-mark case of handleKeyPress: toggle the help view.  It does not
record the current view in PreviousView. -/
def helpToggleKey (s : AppState) : AppState :=
  if s.CurrentView = ViewType.HelpView then { s with CurrentView := ViewType.ResourceView }
  else { s with CurrentView := ViewType.HelpView }

/-- The esc/backspace case of handleYamlViewKeys: reset the YAML scroll offset
and return directly to the resource view (PreviousView is not consulted). -/
def yamlViewBack (s : AppState) : AppState :=
  { s with YamlScrollOffset := 0, CurrentView := ViewType.ResourceView }

/-- handleShowYaml: refuse when the list is empty, the cursor is past the end,
or the selected record is a synthetic Info/Error row; otherwise record the
current view in the PreviousView slot, enter the YAML view and issue a fetch. -/
def handleShowYaml (s : AppState) : AppState × Option Cmd :=
  if s.Resources.length = 0 ∨ (s.Resources.length : Int) ≤ s.SelectedIndex then (s, none)
  else
    let selectedResource := goIndex s.Resources s.SelectedIndex
    if selectedResource.Typ = "Info" ∨ selectedResource.Typ = "Error" then (s, none)
    else
      ({ s with
          SelectedResource := selectedResource
          PreviousView := s.CurrentView
          CurrentView := ViewType.YamlView
          YamlScrollOffset := 0 }, some Cmd.fetchResourceYaml)

/-- handleShowTags: refuse when the list is empty or the cursor is past the end,
or when the resource type is not an ImageStream under the oc tool; otherwise
record the current view and enter the tags view. -/
def handleShowTags (s : AppState) : AppState × Option Cmd :=
  if s.Resources.length = 0 ∨ (s.Resources.length : Int) ≤ s.SelectedIndex then (s, none)
  else if s.ResourceType ≠ "is" ∨ s.Tool ≠ "oc" then (s, none)
  else
    let selectedResource := goIndex s.Resources s.SelectedIndex
    ({ s with
        SelectedResource := selectedResource
        PreviousView := s.CurrentView
        CurrentView := ViewType.TagsView
        TagsScrollOffset := 0 }, some Cmd.fetchResourceTags)

/-- handleDescribeResource: on a non-empty list an out-of-range cursor is reset
to 0 (not to the last index) and the transition proceeds unless the record at
index 0 is a synthetic Info/Error row. -/
def handleDescribeResource (s : AppState) : AppState × Option Cmd :=
  if s.Resources.length = 0 then (s, none)
  else
    let s :=
      if (s.Resources.length : Int) ≤ s.SelectedIndex ∨ s.SelectedIndex < 0 then
        { s with SelectedIndex := 0 }
      else s
    let selectedResource := goIndex s.Resources s.SelectedIndex
    if selectedResource.Typ = "Info" ∨ selectedResource.Typ = "Error" then (s, none)
    else
      ({ s with
          SelectedResource := selectedResource
          PreviousView := s.CurrentView
          CurrentView := ViewType.DescribeView
          DescribeScrollOffset := 0 }, some Cmd.fetchResourceDescription)

/- ------------------------------------------------------------------ -/
/- Specification navigation stack (refinement comparison for C2)      -/
/- ------------------------------------------------------------------ -/

/-- Modelled from the spec: the NavigationStack data model — an ordered sequence
of previously active ViewKinds, pushed on every forward transition, popped on
back, with pop-on-empty a no-op.  This follows the spec words; it exists to be
compared with the source's single PreviousView slot. -/
structure SpecNavState where
  current : ViewType
  stack : List ViewType
  deriving DecidableEq, Repr

/-- One forward or back transition of the specification navigation machine. -/
inductive NavEvent where
  | forward (v : ViewType)
  | back
  deriving DecidableEq, Repr

/-- Modelled from the spec: push the current view on forward, pop and restore on
back, no-op on an empty stack. -/
def specNavStep (e : NavEvent) (st : SpecNavState) : SpecNavState :=
  match e with
  | .forward v => { current := v, stack := st.current :: st.stack }
  | .back =>
    match st.stack with
    | [] => st
    | v :: rest => { current := v, stack := rest }

/-- Run a sequence of specification navigation events. -/
def specNavRun (es : List NavEvent) (st : SpecNavState) : SpecNavState :=
  es.foldl (fun t e => specNavStep e t) st

/- ------------------------------------------------------------------ -/
/- Result messages (Update loop, fetchResources error branch)         -/
/- ------------------------------------------------------------------ -/

/-- The resourcesMsg message type: it carries the fetched records and nothing
else — in particular no record of which target (resource type, namespace) the
fetch was issued for. -/
structure ResourcesMsg where
  resources : List Resource
  deriving DecidableEq, Repr

/-- The resourcesMsg case of the Update function: the delivered list replaces
the stored one unconditionally, and the totals are recomputed.  (The LastUpdate
wall-clock timestamp is not modelled.)  No staleness check exists: the message
has no target to compare with the live one. -/
def applyResourcesMsg (s : AppState) (m : ResourcesMsg) : AppState :=
  { s with
      Resources := m.resources
      TotalItems := (m.resources.length : Int)
      TotalPages := ((m.resources.length : Int) + s.PageSize - 1) / s.PageSize }

/-- The synthetic record built by the error branch of fetchResources. -/
def fetchErrorRecord (s : AppState) (err : String) : Resource :=
  { Name := "Error fetching " ++ s.ResourceType
    Namespace := s.Namespace
    Typ := "Error"
    Status := err
    Ready := "N/A"
    Age := 0 }

/-- The error branch of fetchResources: when the Provider call fails, the
message carries a single synthetic Error record in place of a resource list. -/
def fetchResourcesOnError (s : AppState) (err : String) : ResourcesMsg :=
  { resources := [fetchErrorRecord s err] }

/- ------------------------------------------------------------------ -/
/- Copy action (handleCopyContent)                                    -/
/- ------------------------------------------------------------------ -/

/-- The content selected by handleCopyContent: the mouse selection when one is
active and non-empty, otherwise the whole content of the current view.  The
resource-view branch renders the selected record; its Age field goes through
formatDuration, whose floating-point rendering is abstracted as the parameter
fd. -/
def copyContent (fd : Int → String) (s : AppState) : String :=
  if s.SelectionActive ∧ s.SelectedText ≠ "" then s.SelectedText
  else
    match s.CurrentView with
    | .ResourceView =>
      if 0 < s.Resources.length ∧ s.SelectedIndex < (s.Resources.length : Int) then
        let r := goIndex s.Resources s.SelectedIndex
        "Name: " ++ r.Name ++ "\nNamespace: " ++ r.Namespace ++ "\nStatus: " ++ r.Status ++
          "\nReady: " ++ r.Ready ++ "\nRestarts: " ++ toString r.Restarts ++ "\nAge: " ++ fd r.Age
      else ""
    | .DescribeView => s.DescribeOutput
    | .TagsView => s.TagsOutput
    | .TopView => s.TopOutput
    | .ResourcesView => s.ResourcesOutput
    | .YamlView => s.YamlOutput
    | .EventsView => s.EventsOutput
    | .DiagramView => s.DiagramOutput
    | .MemoryView => s.MemoryOutput
    | .LogsView => s.LogsOutput
    | _ => ""

/-- handleCopyContent: copy the selected text or the whole view content.  When
there is content, the selection is cleared and an OSC52 copy command returned;
otherwise only the status message changes. -/
def handleCopyContent (fd : Int → String) (s : AppState) : AppState × Option Cmd :=
  let content := copyContent fd s
  let s :=
    if s.SelectionActive ∧ s.SelectedText ≠ "" then
      { s with StatusMessage :=
          "✓ Copied selected text (" ++ toString content.length ++ " chars) to clipboard" }
    else if content ≠ "" then
      { s with StatusMessage :=
          "✓ Copied " ++ toString content.length ++ " chars to clipboard (use Ctrl+V to paste)" }
    else s
  if content ≠ "" then
    ({ s with SelectionActive := false, SelectedText := "" }, some (Cmd.printCopy content))
  else
    ({ s with StatusMessage := "✗ No content to copy" }, none)

/- ------------------------------------------------------------------ -/
/- Mouse selection extraction (extractTextFromScrollableView)         -/
/- ------------------------------------------------------------------ -/

/-- Go string slice `line[a:b]` on a line of characters (byte and character
indices agree on the ASCII content these panes render). -/
def sliceChars (line : List Char) (a b : Int) : List Char :=
  (line.drop a.toNat).take (b - a).toNat

/-- The per-line loop of extractTextFromScrollableView: each logical line at
index lineIdx sits at screen row `viewStartY + lineIdx − scrollOffset` with
viewStartY = 3 (title and padding), and contributes to the selection only when
that row lies in [startY, endY].  Coordinates are screen cells, validated
non-negative by the caller (extractSelectedText). -/
def extractScrollableLines (scrollOffset startX startY endX endY : Int) :
    Int → List (List Char) → List (List Char)
  | _, [] => []
  | lineIdx, line :: rest =>
    let screenY : Int := 3 + lineIdx - scrollOffset
    let lineLen : Int := line.length
    let contrib : List (List Char) :=
      if startY ≤ screenY ∧ screenY ≤ endY then
        if startY = endY ∧ startY = screenY then
          -- single-row selection
          if startX < lineLen then
            let e := if lineLen < endX then lineLen else endX
            if startX < e then [sliceChars line startX e] else []
          else []
        else if screenY = startY then
          -- first contributing row
          if startX < lineLen then [line.drop startX.toNat] else []
        else if screenY = endY then
          -- last contributing row
          let e := if lineLen < endX then lineLen else endX
          if 0 < e then [line.take e.toNat] else []
        else
          -- middle rows contribute whole lines
          [line]
      else []
    contrib ++ extractScrollableLines scrollOffset startX startY endX endY (lineIdx + 1) rest

/-- strings.Join(lines, "\n") on character lines. -/
def joinLinesNl (ls : List (List Char)) : List Char :=
  match ls with
  | [] => []
  | [l] => l
  | l :: rest => l ++ '\n' :: joinLinesNl rest

/-- extractTextFromScrollableView: split the backing text into logical lines,
collect the selected spans, and join them with newlines. -/
def extractTextFromScrollableView (output : String)
    (scrollOffset startX startY endX endY : Int) : List Char :=
  if output = "" then []
  else
    joinLinesNl (extractScrollableLines scrollOffset startX startY endX endY 0
      (splitNl output.toList))

/- ------------------------------------------------------------------ -/
/- Resource health classifier (analyzeResourceHealth, main.go)        -/
/- ------------------------------------------------------------------ -/

/-- ResourceType enumeration of main.go (renamed to avoid the AppState field of
the same name). -/
inductive K8sResourceType where
  | NodesResource
  | PersistentVolumesResource
  | StorageClassesResource
  | ClusterRolesResource
  | PodsResource
  | ServicesResource
  | DeploymentsResource
  | ConfigMapsResource
  | SecretsResource
  | IngressResource
  | PersistentVolumeClaimsResource
  | ReplicaSetsResource
  | DaemonSetsResource
  | StatefulSetsResource
  | JobsResource
  | CronJobsResource
  | EventsResource
  deriving DecidableEq, Repr

/-- K8sResource record of main.go; the Details map is an association list, and
a missing key reads as "" (the Go map zero value). -/
structure K8sResource where
  Name : String := ""
  Namespace : String := ""
  Status : String := ""
  Age : String := ""
  Details : List (String × String) := []
  ResourceType : K8sResourceType := .NodesResource
  Errors : List String := []
  Warnings : List String := []
  deriving DecidableEq, Repr

/-- Go map read `r.Details[key]` with the zero value for missing keys. -/
def detailOf (r : K8sResource) (key : String) : String :=
  (r.Details.lookup key).getD ""

/-- strconv.Atoi restricted to the decimal strings these records carry: an
optional sign followed by decimal digits; anything else is an error (none). -/
def goAtoi (s : String) : Option Int :=
  let digitsVal (cs : List Char) : Option Nat :=
    if cs ≠ [] ∧ cs.all Char.isDigit then
      some (cs.foldl (fun a c => 10 * a + (c.toNat - 48)) 0)
    else none
  match s.toList with
  | '-' :: cs => (digitsVal cs).map (fun n => -(n : Int))
  | '+' :: cs => (digitsVal cs).map (fun n => (n : Int))
  | cs => (digitsVal cs).map (fun n => (n : Int))

/-- analyzeResourceHealth: reset the annotations then apply the per-kind rules.
For pods: a Failed/Error status is an error, a Pending status is a warning, and
a parsed restart count above 5 is a warning rendered from the raw string. -/
def analyzeResourceHealth (r : K8sResource) : K8sResource :=
  let base := { r with Errors := [], Warnings := [] }
  match r.ResourceType with
  | .PodsResource =>
    let errs : List String :=
      if r.Status = "Failed" ∨ r.Status = "Error" then ["Pod is in failed state"] else []
    let warns : List String :=
      if r.Status = "Pending" then ["Pod is stuck in pending state"] else []
    let restarts := detailOf r "Restarts"
    let warns :=
      warns ++
        (if restarts ≠ "" ∧ restarts ≠ "0" then
          match goAtoi restarts with
          | some v => if 5 < v then ["High restart count: " ++ restarts] else []
          | none => []
        else [])
    { base with Errors := errs, Warnings := warns }
  | .DeploymentsResource =>
    { base with Errors := if r.Status = "NotReady" then ["Deployment replicas not ready"] else [] }
  | .ServicesResource =>
    { base with Warnings := if detailOf r "Endpoints" = "0" then ["Service has no endpoints"] else [] }
  | .JobsResource =>
    { base with Errors := if r.Status = "Failed" then ["Job failed to complete"] else [] }
  | _ => base

/- ================================================================== -/
/- Theorems                                                           -/
/- ================================================================== -/

/-- Claim C1, counterexample: command A (pods) is issued for target X, the user
navigates to target Y (services), B's result for Y is delivered, then A's stale
result arrives.  The Update loop folds the stale result in — the final state
reflects A's result, not only B's, because resourcesMsg carries no target and no
staleness check exists. -/
theorem c1_counterexample :
    (applyResourcesMsg
        (applyResourcesMsg
          { ResourceType := "services", Namespace := "ns-b", PageSize := 50 }
          { resources := [{ Name := "svc-1", Typ := "Services", Namespace := "ns-b" }] })
        { resources := [{ Name := "pod-1", Typ := "Pods", Namespace := "ns-a" }] }).Resources
      = [{ Name := "pod-1", Typ := "Pods", Namespace := "ns-a" }] ∧
    ([({ Name := "pod-1", Typ := "Pods", Namespace := "ns-a" } : Resource)] ≠
      [({ Name := "svc-1", Typ := "Services", Namespace := "ns-b" } : Resource)]) := by
  constructor
  · rfl
  · decide

/-- Claim C1, amended: delivered resource results are applied unconditionally in
delivery order; a resourcesMsg replaces the stored list whenever it arrives,
with no target comparison, so the state reflects whichever result was delivered
last. -/
theorem c1_amended (s : AppState) (m : ResourcesMsg) :
    (applyResourcesMsg s m).Resources = m.resources ∧
    (applyResourcesMsg s m).TotalItems = (m.resources.length : Int) :=
  ⟨rfl, rfl⟩

/-- Claim C3, counterexample: a state holds one loaded record; a failed fetch
("connection refused") is processed, and the stored list is replaced by a
synthetic Error record — the previous list is not left intact. -/
theorem c3_counterexample :
    ((applyResourcesMsg
        { Resources := [{ Name := "pod-1", Typ := "Pods", Status := "Running" }],
          ResourceType := "pods", Namespace := "default" }
        (fetchResourcesOnError
          { Resources := [{ Name := "pod-1", Typ := "Pods", Status := "Running" }],
            ResourceType := "pods", Namespace := "default" } "connection refused")).Resources
      = [{ Name := "Error fetching pods", Namespace := "default", Typ := "Error",
            Status := "connection refused", Ready := "N/A" }]) ∧
    ([({ Name := "Error fetching pods", Namespace := "default", Typ := "Error",
          Status := "connection refused", Ready := "N/A" } : Resource)] ≠
      [({ Name := "pod-1", Typ := "Pods", Status := "Running" } : Resource)]) := by
  constructor
  · rfl
  · decide

/-- Claim C3, amended: when a resource-list fetch fails, the stored list is
replaced by a single synthetic Error record whose Status carries the error text
(the failure is surfaced inside the table, not by keeping the previous list). -/
theorem c3_amended (s : AppState) (err : String) :
    (applyResourcesMsg s (fetchResourcesOnError s err)).Resources = [fetchErrorRecord s err] :=
  rfl

/-- Claim C7: a pod record in the terminal Failed status with a restart count of
7 (threshold 5) classifies to exactly one error ("Pod is in failed state") and
exactly one warning ("High restart count: 7"). -/
theorem c7_classifier_failed_pod :
    (analyzeResourceHealth
        { Name := "app-1", Status := "Failed", Details := [("Restarts", "7")],
          ResourceType := .PodsResource }).Errors = ["Pod is in failed state"] ∧
    (analyzeResourceHealth
        { Name := "app-1", Status := "Failed", Details := [("Restarts", "7")],
          ResourceType := .PodsResource }).Warnings = ["High restart count: 7"] := by
  constructor
  · rfl
  · rfl

/-- Claim C8, counterexample: a forward view transition (the y key entering the
YAML view) leaves an active selection active with its extracted text intact —
view transitions do not reset the selection state. -/
theorem c8_counterexample :
    ((handleShowYaml
        { CurrentView := .ResourceView, SelectionActive := true, SelectedText := "abc",
          Resources := [{ Name := "pod-1", Typ := "Pods" }] }).1.CurrentView
      = ViewType.YamlView) ∧
    ((handleShowYaml
        { CurrentView := .ResourceView, SelectionActive := true, SelectedText := "abc",
          Resources := [{ Name := "pod-1", Typ := "Pods" }] }).1.SelectionActive = true) ∧
    ((handleShowYaml
        { CurrentView := .ResourceView, SelectionActive := true, SelectedText := "abc",
          Resources := [{ Name := "pod-1", Typ := "Pods" }] }).1.SelectedText = "abc") := by
  refine ⟨?_, ?_, ?_⟩ <;> rfl

/-- Claim C8, amended: only the explicit copy action resets the selection, and
only when it found content to copy: whenever the copied content is non-empty the
resulting state has SelectionActive = false and empty extracted text.  View
transitions leave the selection untouched. -/
theorem c8_amended (fd : Int → String) (s : AppState) (h : copyContent fd s ≠ "") :
    (handleCopyContent fd s).1.SelectionActive = false ∧
    (handleCopyContent fd s).1.SelectedText = "" := by
  unfold handleCopyContent
  simp only [h, if_true, ite_not, if_neg, reduceIte]
  exact ⟨trivial, trivial⟩

/-- Witness for c8_amended at a concrete state: the YAML view with content
"abc" and no duration rendering needed. -/
theorem c8_amended_witness :
    copyContent (fun _ => "") { CurrentView := .YamlView, YamlOutput := "abc" } ≠ "" ∧
    ((handleCopyContent (fun _ => "") { CurrentView := .YamlView, YamlOutput := "abc" }).1.SelectionActive = false ∧
      (handleCopyContent (fun _ => "") { CurrentView := .YamlView, YamlOutput := "abc" }).1.SelectedText = "") :=
  ⟨by decide, c8_amended (fun _ => "") _ (by decide)⟩

/-- Claim C9, counterexample: with one loaded record and cursor index 5, the y
and tags keys refuse the transition and leave the state unchanged — the cursor
is not clamped to the last valid index and no transition proceeds. -/
theorem c9_counterexample :
    (handleShowYaml
        { Resources := [{ Name := "pod-1", Typ := "Pods" }], SelectedIndex := 5,
          ResourceType := "is", Tool := "oc" }
      = ({ Resources := [{ Name := "pod-1", Typ := "Pods" }], SelectedIndex := 5,
            ResourceType := "is", Tool := "oc" }, none)) ∧
    (handleShowTags
        { Resources := [{ Name := "pod-1", Typ := "Pods" }], SelectedIndex := 5,
          ResourceType := "is", Tool := "oc" }
      = ({ Resources := [{ Name := "pod-1", Typ := "Pods" }], SelectedIndex := 5,
            ResourceType := "is", Tool := "oc" }, none)) := by
  refine ⟨?_, ?_⟩ <;> rfl

/-- Claim C9, amended: when a data view is requested while the cursor index is
at or beyond the list length, the YAML and tags handlers abort the transition
and leave the state unchanged; the describe handler instead resets the cursor to
0 (not the last valid index) and proceeds from there. -/
theorem c9_amended (s : AppState) (h : (s.Resources.length : Int) ≤ s.SelectedIndex) :
    handleShowYaml s = (s, none) ∧ handleShowTags s = (s, none) ∧
    (0 < s.Resources.length → (handleDescribeResource s).1.SelectedIndex = 0) := by
  refine ⟨?_, ?_, ?_⟩
  · unfold handleShowYaml
    rw [if_pos (Or.inr h)]
  · unfold handleShowTags
    rw [if_pos (Or.inr h)]
  · intro hlen
    unfold handleDescribeResource
    rw [if_neg (by omega)]
    simp only [if_pos (Or.inl h)]
    split <;> rfl

/-- Witness for c9_amended: one record, cursor at 5. -/
theorem c9_amended_witness :
    ((([({ Name := "pod-1", Typ := "Pods" } : Resource)] : List Resource).length : Int) ≤ 5) ∧
    (handleShowYaml { Resources := [{ Name := "pod-1", Typ := "Pods" }], SelectedIndex := 5 }
        = ({ Resources := [{ Name := "pod-1", Typ := "Pods" }], SelectedIndex := 5 }, none) ∧
      handleShowTags { Resources := [{ Name := "pod-1", Typ := "Pods" }], SelectedIndex := 5 }
        = ({ Resources := [{ Name := "pod-1", Typ := "Pods" }], SelectedIndex := 5 }, none) ∧
      (0 < ({ Resources := [{ Name := "pod-1", Typ := "Pods" }], SelectedIndex := 5 } : AppState).Resources.length →
        (handleDescribeResource { Resources := [{ Name := "pod-1", Typ := "Pods" }], SelectedIndex := 5 }).1.SelectedIndex = 0)) :=
  ⟨by decide, c9_amended { Resources := [{ Name := "pod-1", Typ := "Pods" }], SelectedIndex := 5 } (by decide)⟩

/-- Claim C2, counterexample: from the initial state, two forward transitions
(help via the question-mark key, then YAML via the y key) followed by one back
input land the code at ResourceView, while the specification stack machine is at
HelpView with stack depth 1 (= 2 forwards − 1 back).  The code keeps a single
PreviousView slot, not a stack, so the depth equality fails. -/
theorem c2_counterexample :
    ((helpToggleKey { Resources := [{ Name := "pod-1", Typ := "Pods" }] }).CurrentView
      = ViewType.HelpView) ∧
    ((handleShowYaml (helpToggleKey { Resources := [{ Name := "pod-1", Typ := "Pods" }] })).1.CurrentView
      = ViewType.YamlView) ∧
    ((yamlViewBack
        (handleShowYaml (helpToggleKey { Resources := [{ Name := "pod-1", Typ := "Pods" }] })).1).CurrentView
      = ViewType.ResourceView) ∧
    ((specNavRun [.forward .HelpView, .forward .YamlView, .back]
        { current := .ResourceView, stack := [] }).current = ViewType.HelpView) ∧
    ((specNavRun [.forward .HelpView, .forward .YamlView, .back]
        { current := .ResourceView, stack := [] }).stack.length = 1) ∧
    (ViewType.ResourceView ≠ ViewType.HelpView) := by
  refine ⟨rfl, rfl, rfl, rfl, rfl, by decide⟩

/-- Claim C2, amended: the code keeps a single previous-view slot instead of a
stack.  A back input when the current view is the root ResourceView leaves the
state unchanged (the surviving empty-history half of the claim), and a back
input from the YAML data view returns directly to ResourceView regardless of how
many forward transitions preceded it, so the stack-depth equality fails beyond
depth one. -/
theorem c2_amended (s t : AppState) (h : s.CurrentView = ViewType.ResourceView) :
    handleBackNavigation s = (s, none) ∧
    (yamlViewBack t).CurrentView = ViewType.ResourceView := by
  constructor
  · unfold handleBackNavigation
    rw [if_neg (by simp [h])]
  · rfl

/-- Witness for c2_amended at the default initial state. -/
theorem c2_amended_witness :
    (({} : AppState).CurrentView = ViewType.ResourceView) ∧
    (handleBackNavigation {} = ({}, none) ∧
      (yamlViewBack {}).CurrentView = ViewType.ResourceView) :=
  ⟨rfl, c2_amended {} {} rfl⟩

/-- Helper for claim C6: with zero scroll and both drag rows at screen row 3,
lines at index 1 and beyond sit at screen rows strictly below row 3 and
contribute nothing. -/
theorem extractScrollableLines_past (startX endX : Int) (ls : List (List Char)) :
    ∀ idx : Int, 1 ≤ idx →
      extractScrollableLines 0 startX 3 endX 3 idx ls = [] := by
  induction ls with
  | nil => intro idx _; rfl
  | cons hd tl ih =>
    intro idx hidx
    have hcond : ¬((3 : Int) ≤ 3 + idx - 0 ∧ 3 + idx - 0 ≤ 3) := by omega
    unfold extractScrollableLines
    simp only [hcond, if_false, List.nil_append]
    exact ih (idx + 1) (by omega)

/-- Claim C6, counterexample: on a four-line pane with zero scroll, a drag from
(5, 3) to (20, 3) extracts characters [5:20) of logical line 0 (the first line
of the backing text, whose screen row is viewStartY = 3), not of logical
line 3. -/
theorem c6_counterexample :
    (extractTextFromScrollableView
        "aaaaaaaaaaaaaaaaaaaaaaaaa\nbbbbb\nccccc\nddddddddddddddddddddddddd" 0 5 3 20 3
      = "aaaaaaaaaaaaaaa".toList) ∧
    (sliceChars "ddddddddddddddddddddddddd".toList 5 20 = "ddddddddddddddd".toList) ∧
    (extractTextFromScrollableView
        "aaaaaaaaaaaaaaaaaaaaaaaaa\nbbbbb\nccccc\nddddddddddddddddddddddddd" 0 5 3 20 3
      ≠ sliceChars "ddddddddddddddddddddddddd".toList 5 20) := by
  refine ⟨by decide, by decide, by decide⟩

/-- Claim C6, amended: for a pane displayed with zero scroll offset, a drag from
(startX, 3) to (endX, 3) extracts exactly characters [startX:endX) of logical
line 0 of the backing text — screen row 3 is the first content row
(viewStartY = 3), so with no scroll it shows logical line 0, not line 3. -/
theorem c6_amended (l : List Char) (ls : List (List Char)) (startX endX : Int)
    (h0 : 0 ≤ startX) (hlt : startX < endX) (hle : endX ≤ (l.length : Int)) :
    extractScrollableLines 0 startX 3 endX 3 0 (l :: ls) = [sliceChars l startX endX] := by
  have hsx : startX < (l.length : Int) := by omega
  have hee : ¬ ((l.length : Int) < endX) := not_lt.mpr hle
  have hpast := extractScrollableLines_past startX endX ls 1 (by norm_num)
  unfold extractScrollableLines
  simp only [show (3 : Int) + 0 - 0 = 3 by norm_num, show (0 : Int) + 1 = 1 by norm_num]
  rw [if_pos ⟨le_refl (3 : Int), le_refl (3 : Int)⟩]
  rw [if_pos ⟨trivial, trivial⟩]
  rw [if_pos hsx]
  rw [if_neg hee]
  rw [if_pos hlt]
  rw [hpast]
  simp

/-- Witness for c6_amended: the alphabet line, drag columns 5 to 20. -/
theorem c6_amended_witness :
    ((0 : Int) ≤ 5) ∧ ((5 : Int) < 20) ∧
    ((20 : Int) ≤ ("abcdefghijklmnopqrstuvwxyz".toList.length : Int)) ∧
    (extractScrollableLines 0 5 3 20 3 0 ["abcdefghijklmnopqrstuvwxyz".toList]
      = [sliceChars "abcdefghijklmnopqrstuvwxyz".toList 5 20]) :=
  ⟨by decide, by decide, by decide,
    c6_amended "abcdefghijklmnopqrstuvwxyz".toList [] 5 20 (by decide) (by decide) (by decide)⟩

/-- Claim C4: for any list of 142 records with PageSize = 50, pagination reports
TotalPages = 3; page 0 has HasPrev = false and HasNext = true; advancing the
page twice reaches page 2, whose slice holds exactly 42 items with
HasNext = false. -/
theorem c4_pagination_scenario (rs : List Resource) (h : rs.length = 142) :
    (paginateResources { Resources := rs, PageSize := 50, CurrentPage := 0 }).TotalPages = 3 ∧
    (paginateResources { Resources := rs, PageSize := 50, CurrentPage := 0 }).HasPrev = false ∧
    (paginateResources { Resources := rs, PageSize := 50, CurrentPage := 0 }).HasNext = true ∧
    (handleRightNavigation (handleRightNavigation
        { Resources := rs, PageSize := 50, CurrentPage := 0 })).CurrentPage = 2 ∧
    (paginateResources (handleRightNavigation (handleRightNavigation
        { Resources := rs, PageSize := 50, CurrentPage := 0 }))).Items.length = 42 ∧
    (paginateResources (handleRightNavigation (handleRightNavigation
        { Resources := rs, PageSize := 50, CurrentPage := 0 }))).HasNext = false := by
  simp only [paginateResources, handleRightNavigation, h]
  norm_num [List.length_take, List.length_drop, h]
  decide

/-- Witness for c4_pagination_scenario on a concrete list of 142 records. -/
theorem c4_pagination_scenario_witness :
    (List.replicate 142 ({} : Resource)).length = 142 ∧
    ((paginateResources
        { Resources := List.replicate 142 ({} : Resource), PageSize := 50, CurrentPage := 0 }).TotalPages = 3 ∧
      (paginateResources
        { Resources := List.replicate 142 ({} : Resource), PageSize := 50, CurrentPage := 0 }).HasPrev = false ∧
      (paginateResources
        { Resources := List.replicate 142 ({} : Resource), PageSize := 50, CurrentPage := 0 }).HasNext = true ∧
      (handleRightNavigation (handleRightNavigation
          { Resources := List.replicate 142 ({} : Resource), PageSize := 50, CurrentPage := 0 })).CurrentPage = 2 ∧
      (paginateResources (handleRightNavigation (handleRightNavigation
          { Resources := List.replicate 142 ({} : Resource), PageSize := 50, CurrentPage := 0 }))).Items.length = 42 ∧
      (paginateResources (handleRightNavigation (handleRightNavigation
          { Resources := List.replicate 142 ({} : Resource), PageSize := 50, CurrentPage := 0 }))).HasNext = false) :=
  ⟨by simp, c4_pagination_scenario (List.replicate 142 {}) (by simp)⟩

/-- Helper for claim C5: scroll operations touch only the scroll offset, never
the backing output or the terminal height. -/
theorem stepDescribeScroll_fields (op : ScrollOp) (s : AppState) :
    (stepDescribeScroll op s).DescribeOutput = s.DescribeOutput ∧
    (stepDescribeScroll op s).height = s.height := by
  cases op <;> refine ⟨?_, ?_⟩ <;>
    dsimp only [stepDescribeScroll, scrollDescribeDown, scrollDescribeUp, pageDescribeDown,
      pageDescribeUp, scrollDescribeToTop, scrollDescribeToBottom] <;>
    (try split) <;> rfl

/-- Helper for claim C5: the scroll maximum is invariant under scroll
operations, since it depends only on the output and the terminal height. -/
theorem getMaxDescribeScroll_step (op : ScrollOp) (s : AppState) :
    getMaxDescribeScroll (stepDescribeScroll op s) = getMaxDescribeScroll s := by
  have h := stepDescribeScroll_fields op s
  unfold getMaxDescribeScroll getDescribeViewHeight
  rw [h.1, h.2]

/-- Helper for claim C5: the page step is at least one line. -/
theorem describePageSize_pos (s : AppState) : 1 ≤ describePageSize s := by
  simp only [describePageSize]
  split <;> omega

/-- Helper for claim C5: one scroll operation preserves the scroll bounds. -/
theorem stepDescribeScroll_bounds (op : ScrollOp) (s : AppState)
    (h0 : 0 ≤ s.DescribeScrollOffset) (h1 : s.DescribeScrollOffset ≤ getMaxDescribeScroll s) :
    0 ≤ (stepDescribeScroll op s).DescribeScrollOffset ∧
    (stepDescribeScroll op s).DescribeScrollOffset
      ≤ getMaxDescribeScroll (stepDescribeScroll op s) := by
  rw [getMaxDescribeScroll_step]
  have hp := describePageSize_pos s
  cases op <;>
    simp only [stepDescribeScroll, scrollDescribeDown, scrollDescribeUp, pageDescribeDown,
      pageDescribeUp, scrollDescribeToTop, scrollDescribeToBottom] <;>
    (try split) <;> (try dsimp only) <;> omega

/-- Helper for claim C5: every sequence of scroll operations preserves the
scroll bounds. -/
theorem runDescribeScroll_bounds (ops : List ScrollOp) (s : AppState)
    (h0 : 0 ≤ s.DescribeScrollOffset) (h1 : s.DescribeScrollOffset ≤ getMaxDescribeScroll s) :
    0 ≤ (runDescribeScroll ops s).DescribeScrollOffset ∧
    (runDescribeScroll ops s).DescribeScrollOffset
      ≤ getMaxDescribeScroll (runDescribeScroll ops s) := by
  induction ops generalizing s with
  | nil => exact ⟨h0, h1⟩
  | cons op rest ih =>
    have hb := stepDescribeScroll_bounds op s h0 h1
    exact ih (stepDescribeScroll op s) hb.1 hb.2

/-- Claim C5: starting from any in-bounds offset, every sequence of scroll
operations on the describe pane keeps 0 ≤ offset ≤ maxScroll; for non-empty
output maxScroll = max(0, lineCount − viewportHeight + padding) with padding 2;
page operations move by half the viewport height with a minimum of 1; and
to-bottom sets the offset exactly to maxScroll. -/
theorem c5_scroll_bounds (s : AppState) (ops : List ScrollOp)
    (h0 : 0 ≤ s.DescribeScrollOffset) (h1 : s.DescribeScrollOffset ≤ getMaxDescribeScroll s) :
    (0 ≤ (runDescribeScroll ops s).DescribeScrollOffset ∧
      (runDescribeScroll ops s).DescribeScrollOffset
        ≤ getMaxDescribeScroll (runDescribeScroll ops s)) ∧
    (s.DescribeOutput ≠ "" →
      getMaxDescribeScroll s =
        max 0 (((splitNl s.DescribeOutput.toList).length : Int) - getDescribeViewHeight s + 2)) ∧
    describePageSize s = max 1 (getDescribeViewHeight s / 2) ∧
    (scrollDescribeToBottom s).DescribeScrollOffset = getMaxDescribeScroll s := by
  refine ⟨runDescribeScroll_bounds ops s h0 h1, ?_, ?_, rfl⟩
  · intro hne
    unfold getMaxDescribeScroll
    rw [if_neg hne]
    dsimp only
    split <;> omega
  · unfold describePageSize
    dsimp only
    split <;> omega

/-- Concrete describe-pane state used by the c5 witness: twelve lines of
output in a ten-row terminal, offset at the top. -/
def c5State : AppState :=
  { DescribeOutput := "a\nb\nc\nd\ne\nf\ng\nh\ni\nj\nk\nl", height := 10 }

/-- Witness for c5_scroll_bounds: a mixed scroll sequence on c5State. -/
theorem c5_scroll_bounds_witness :
    ((0 : Int) ≤ c5State.DescribeScrollOffset) ∧
    (c5State.DescribeScrollOffset ≤ getMaxDescribeScroll c5State) ∧
    ((0 ≤ (runDescribeScroll [.pageDown, .down, .up, .toBottom, .pageUp] c5State).DescribeScrollOffset ∧
        (runDescribeScroll [.pageDown, .down, .up, .toBottom, .pageUp] c5State).DescribeScrollOffset
          ≤ getMaxDescribeScroll (runDescribeScroll [.pageDown, .down, .up, .toBottom, .pageUp] c5State)) ∧
      (c5State.DescribeOutput ≠ "" →
        getMaxDescribeScroll c5State =
          max 0 (((splitNl c5State.DescribeOutput.toList).length : Int) - getDescribeViewHeight c5State + 2)) ∧
      describePageSize c5State = max 1 (getDescribeViewHeight c5State / 2) ∧
      (scrollDescribeToBottom c5State).DescribeScrollOffset = getMaxDescribeScroll c5State) :=
  ⟨by decide, by decide,
    c5_scroll_bounds c5State [.pageDown, .down, .up, .toBottom, .pageUp] (by decide) (by decide)⟩

/-- Claim C10: pagination is total and in-bounds — for every resource list,
PageSize ≥ 1 and CurrentPage ≥ 0 (including pages past the end), the result has
TotalPages ≥ 1 and at most PageSize items, and whenever
CurrentPage × PageSize ≥ totalItems the item slice is empty with
HasNext = false and HasPrev = (CurrentPage > 0).  The slice arithmetic of the
non-empty branch stays inside the list, so no out-of-range indexing occurs. -/
theorem c10_pagination_safety (s : AppState) (hps : 1 ≤ s.PageSize) (hcp : 0 ≤ s.CurrentPage) :
    1 ≤ (paginateResources s).TotalPages ∧
    ((paginateResources s).Items.length : Int) ≤ s.PageSize ∧
    ((s.Resources.length : Int) ≤ s.CurrentPage * s.PageSize →
      (paginateResources s).Items = [] ∧
      (paginateResources s).HasNext = false ∧
      (paginateResources s).HasPrev = decide (0 < s.CurrentPage)) := by
  have hdiv : 0 ≤ ((s.Resources.length : Int) + s.PageSize - 1) / s.PageSize :=
    Int.ediv_nonneg (by omega) (by omega)
  have hstnn : 0 ≤ s.CurrentPage * s.PageSize := mul_nonneg hcp (by omega)
  refine ⟨?_, ?_, ?_⟩
  · simp only [paginateResources]
    generalize hq : ((s.Resources.length : Int) + s.PageSize - 1) / s.PageSize = q at hdiv ⊢
    split <;> dsimp only <;> split <;> omega
  · simp only [paginateResources]
    generalize hst : s.CurrentPage * s.PageSize = st at hstnn ⊢
    split
    · simp
      omega
    · dsimp only
      rw [List.length_take, List.length_drop]
      refine le_trans (Nat.cast_le.mpr (min_le_left _ _)) ?_
      split <;> omega
  · intro hpast
    simp only [paginateResources]
    generalize hst : s.CurrentPage * s.PageSize = st at hpast hstnn ⊢
    rw [if_pos hpast]
    exact ⟨rfl, rfl, rfl⟩

/-- Concrete state used by the c10 witness: one record, page size 50, and the
cursor on page 7, far past the end of the list. -/
def c10State : AppState :=
  { Resources := [{ Name := "pod-1", Typ := "Pods" }], PageSize := 50, CurrentPage := 7 }

/-- Witness for c10_pagination_safety on c10State. -/
theorem c10_pagination_safety_witness :
    (1 ≤ c10State.PageSize) ∧ (0 ≤ c10State.CurrentPage) ∧
    (1 ≤ (paginateResources c10State).TotalPages ∧
      ((paginateResources c10State).Items.length : Int) ≤ c10State.PageSize ∧
      ((c10State.Resources.length : Int) ≤ c10State.CurrentPage * c10State.PageSize →
        (paginateResources c10State).Items = [] ∧
        (paginateResources c10State).HasNext = false ∧
        (paginateResources c10State).HasPrev = decide (0 < c10State.CurrentPage))) :=
  ⟨by decide, by decide, c10_pagination_safety c10State (by decide) (by decide)⟩

end K8sGo
